import Mathlib

/-
Shallow embedding of the Fruit Supply service (src/main.py, src/tasks.py,
src/celery_worker.py): a FastAPI CRUD application over three MongoDB
collections (fruits, orders, inventory) plus one Celery task that resets an
inventory record's quantity.

Modelling conventions:
* A MongoDB document is a `Doc α`: a store-generated ObjectId together with
  the payload record.  The fruits collection carries a unique index on the
  fruit name (created in `startup_event`, src/main.py lines 48-50); the
  embedding enforces it inside the insert operation, as the server does.
* ObjectIds are natural numbers; `oidString` is the 24-character lowercase
  hex rendering produced by `str(ObjectId)`, and `parseOid` is the
  `ObjectId(s)` constructor, which accepts exactly 24-character hex strings
  (case-insensitively) and raises `InvalidId` otherwise.  `parseOid` returns
  `none` for the raising case.
* Python floats (`price`, `total_price`) are modelled as `Rat`: the service
  only stores and returns them, it never performs float arithmetic.
* Each handler takes a `net : Bool` flag injecting store reachability: when
  `net = false`, the first pymongo collection operation the handler reaches
  raises a connection failure.  A handler whose store call sits inside a
  `try/except` block converts that exception to a `Resp.err` body; a handler
  whose store call is outside any `try` propagates it as `Except.error`.
* A handler's result is `Except PyExn (Store × Resp)`: `Except.error e`
  means the Python exception `e` escaped the handler uncaught.
-/

/-- pydantic model `Fruit` (src/main.py lines 19-25). -/
structure Fruit where
  name : String
  region : String
  season : String
  shelf_life_days : Int
  price : Rat
  ripe : Bool
deriving DecidableEq

/-- pydantic model `OrderRequest` (src/main.py lines 27-33).  The schema
constrains only field presence and primitive type: `quantity` is any `int`. -/
structure OrderRequest where
  fruit_name : String
  quantity : Int
  delivery_address : String
  total_price : Rat
  delivery_type : String
  comments : Option String
deriving DecidableEq

/-- pydantic model `InventoryItem` (src/main.py lines 35-38). -/
structure InventoryItem where
  fruit : Fruit
  quantity : Int
  last_updated : String
deriving DecidableEq

/-- A stored MongoDB document: the generated `_id` plus the payload fields. -/
structure Doc (α : Type) where
  oid : Nat
  payload : α
deriving DecidableEq

/-- A document as returned over the API, with `_id` stringified
(`doc["_id"] = str(doc["_id"])`). -/
structure DocOut (α : Type) where
  idStr : String
  payload : α
deriving DecidableEq

/-- Python exceptions that the store client can raise into a handler. -/
inductive PyExn where
  | duplicateKey : String → PyExn
  | invalidId : String → PyExn
  | connFailure : String → PyExn
deriving DecidableEq

/-- JSON response bodies the handlers build: success message with an id field,
bare success message, the uniform error body keyed by "error", a returned
document, or a task handle. -/
inductive Resp where
  | msgWithId : String → String → String → Resp
  | msg : String → Resp
  | err : String → Resp
  | fruitRec : DocOut Fruit → Resp
  | orderRec : DocOut OrderRequest → Resp
  | invRec : DocOut InventoryItem → Resp
  | taskRec : String → Resp
deriving DecidableEq

/-- The database `fruit_supply_db` with its three collections
(src/main.py lines 41-45), plus the generator state for fresh ObjectIds. -/
structure Store where
  fruits : List (Doc Fruit)
  orders : List (Doc OrderRequest)
  inventory : List (Doc InventoryItem)
  nextOid : Nat
deriving DecidableEq

def emptyStore : Store := ⟨[], [], [], 0⟩

/-- Value of a hex digit character. -/
def hexVal (c : Char) : Nat :=
  if c.isDigit then c.toNat - 48
  else if decide ('a' ≤ c) && decide (c ≤ 'f') then c.toNat - 87
  else c.toNat - 55

def isHexDigit (c : Char) : Bool :=
  c.isDigit || (decide ('a' ≤ c) && decide (c ≤ 'f'))
    || (decide ('A' ≤ c) && decide (c ≤ 'F'))

/-- Lowercase hex digit character for a value below 16. -/
def hexChar (n : Nat) : Char :=
  if n < 10 then Char.ofNat (48 + n) else Char.ofNat (87 + n)

/-- Big-endian hex digits of `n`, padded to width `k`. -/
def hexDigits : Nat → Nat → List Char
  | 0, _ => []
  | k + 1, n => hexDigits k (n / 16) ++ [hexChar (n % 16)]

/-- `str(oid)`: the 24-character lowercase hex string of an ObjectId. -/
def oidString (n : Nat) : String := String.mk (hexDigits 24 n)

/-- A string is accepted by the `ObjectId` constructor iff it is a
24-character hex string. -/
def isValidOid (s : String) : Bool :=
  s.data.length == 24 && s.data.all isHexDigit

/-- `ObjectId(s)`: `some` of the parsed id for a valid 24-character hex
string, `none` when the constructor would raise `InvalidId`. -/
def parseOid (s : String) : Option Nat :=
  if isValidOid s then some (s.data.foldl (fun n c => 16 * n + hexVal c) 0)
  else none

/-- `update_one`/`delete_one` semantics on a collection: the first document
matching the filter is transformed, the rest are untouched. -/
def updateFirst {α : Type} (p : α → Bool) (f : α → α) : List α → List α
  | [] => []
  | d :: ds => if p d then f d :: ds else d :: updateFirst p f ds

/-- `delete_one` semantics: the first matching document is removed. -/
def deleteFirst {α : Type} (p : α → Bool) : List α → List α
  | [] => []
  | d :: ds => if p d then ds else d :: deleteFirst p ds

/-- `matched_count` / `deleted_count` of a single-document write: 1 when some
document matches the filter, else 0. -/
def matchedCount {α : Type} (p : α → Bool) (l : List α) : Nat :=
  if l.any p then 1 else 0

def connMsg : String := "connection refused"

def dupKeyMsg : String :=
  "E11000 duplicate key error collection: fruit_supply_db.fruits index: name_1"

def invalidIdMsg (s : String) : String :=
  s ++ " is not a valid ObjectId, it must be a 12-byte input " ++
    "or a 24-character hex string"

/-- `add_fruit` (src/main.py lines 60-75).  `insert_one` is inside `try`:
a duplicate-name rejection by the unique index, or a connection failure,
becomes an error body; otherwise the document is inserted with a fresh id. -/
def add_fruit (net : Bool) (st : Store) (fruit : Fruit) :
    Except PyExn (Store × Resp) :=
  if net = false then
    Except.ok (st, Resp.err ("Error occurred while adding fruit to database: "
      ++ connMsg))
  else if st.fruits.any (fun d => d.payload.name == fruit.name) then
    Except.ok (st, Resp.err ("Error occurred while adding fruit to database: "
      ++ dupKeyMsg))
  else
    Except.ok
      ({ st with
          fruits := st.fruits ++ [⟨st.nextOid, fruit⟩]
          nextOid := st.nextOid + 1 },
        Resp.msgWithId "Fruit added successfully" "fruit_id"
          (oidString st.nextOid))

/-- `get_fruit` (src/main.py lines 77-89).  `find_one` by name, no `try`
block: a connection failure propagates. -/
def get_fruit (net : Bool) (st : Store) (fruit_name : String) :
    Except PyExn (Store × Resp) :=
  if net = false then Except.error (PyExn.connFailure connMsg)
  else
    match st.fruits.find? (fun d => d.payload.name == fruit_name) with
    | none => Except.ok (st, Resp.err "Fruit not found")
    | some d => Except.ok (st, Resp.fruitRec ⟨oidString d.oid, d.payload⟩)

/-- `update_fruit_price` (src/main.py lines 91-108).  `update_one` by name
setting only `price`, no `try` block: a connection failure propagates. -/
def update_fruit_price (net : Bool) (st : Store) (fruit_name : String)
    (new_price : Rat) : Except PyExn (Store × Resp) :=
  if net = false then Except.error (PyExn.connFailure connMsg)
  else
    let p : Doc Fruit → Bool := fun d => d.payload.name == fruit_name
    let fruits' := updateFirst p
      (fun d => { d with payload := { d.payload with price := new_price } })
      st.fruits
    if matchedCount p st.fruits = 0 then
      Except.ok ({ st with fruits := fruits' }, Resp.err "Fruit not found")
    else
      Except.ok ({ st with fruits := fruits' },
        Resp.msg "Fruit price updated successfully")

/-- `delete_fruit` (src/main.py lines 110-122).  `delete_one` by name, no
`try` block: a connection failure propagates. -/
def delete_fruit (net : Bool) (st : Store) (fruit_name : String) :
    Except PyExn (Store × Resp) :=
  if net = false then Except.error (PyExn.connFailure connMsg)
  else
    let p : Doc Fruit → Bool := fun d => d.payload.name == fruit_name
    let fruits' := deleteFirst p st.fruits
    if matchedCount p st.fruits = 0 then
      Except.ok ({ st with fruits := fruits' }, Resp.err "Fruit not found")
    else
      Except.ok ({ st with fruits := fruits' },
        Resp.msg "Fruit deleted successfully")

/-- `place_order` (src/main.py lines 124-138).  `insert_one` inside `try`;
the orders collection has no uniqueness constraint, so with the store
reachable every schema-valid payload is inserted, whatever its `quantity`. -/
def place_order (net : Bool) (st : Store) (order : OrderRequest) :
    Except PyExn (Store × Resp) :=
  if net = false then
    Except.ok (st, Resp.err ("Error occurred while placing order: " ++ connMsg))
  else
    Except.ok
      ({ st with
          orders := st.orders ++ [⟨st.nextOid, order⟩]
          nextOid := st.nextOid + 1 },
        Resp.msgWithId "Order placed successfully" "order_id"
          (oidString st.nextOid))

/-- `get_order` (src/main.py lines 140-156).  `ObjectId(order_id)` and
`find_one` both inside `try`: malformed ids, connection failures and the
not-found case all become error bodies; nothing propagates. -/
def get_order (net : Bool) (st : Store) (order_id : String) :
    Except PyExn (Store × Resp) :=
  match parseOid order_id with
  | none => Except.ok (st, Resp.err ("Error occurred while retrieving order: "
      ++ invalidIdMsg order_id))
  | some oid =>
    if net = false then
      Except.ok (st, Resp.err ("Error occurred while retrieving order: "
        ++ connMsg))
    else
      match st.orders.find? (fun d => d.oid == oid) with
      | none => Except.ok (st, Resp.err "Order not found")
      | some d => Except.ok (st, Resp.orderRec ⟨oidString d.oid, d.payload⟩)

/-- `update_order` (src/main.py lines 158-179).  `ObjectId(order_id)` and
`update_one` with a `$set` of the full payload, both inside `try`. -/
def update_order (net : Bool) (st : Store) (order_id : String)
    (order : OrderRequest) : Except PyExn (Store × Resp) :=
  match parseOid order_id with
  | none => Except.ok (st, Resp.err ("Error occurred while updating order: "
      ++ invalidIdMsg order_id))
  | some oid =>
    if net = false then
      Except.ok (st, Resp.err ("Error occurred while updating order: "
        ++ connMsg))
    else
      let p : Doc OrderRequest → Bool := fun d => d.oid == oid
      let orders' := updateFirst p (fun d => { d with payload := order })
        st.orders
      if matchedCount p st.orders = 0 then
        Except.ok ({ st with orders := orders' }, Resp.err "Order not found")
      else
        Except.ok ({ st with orders := orders' },
          Resp.msg "Order updated successfully")

/-- `delete_order` (src/main.py lines 181-195).  `ObjectId(order_id)` and
`delete_one`, both inside `try`. -/
def delete_order (net : Bool) (st : Store) (order_id : String) :
    Except PyExn (Store × Resp) :=
  match parseOid order_id with
  | none => Except.ok (st, Resp.err ("Error occurred while deleting order: "
      ++ invalidIdMsg order_id))
  | some oid =>
    if net = false then
      Except.ok (st, Resp.err ("Error occurred while deleting order: "
        ++ connMsg))
    else
      let p : Doc OrderRequest → Bool := fun d => d.oid == oid
      let orders' := deleteFirst p st.orders
      if matchedCount p st.orders = 0 then
        Except.ok ({ st with orders := orders' }, Resp.err "Order not found")
      else
        Except.ok ({ st with orders := orders' },
          Resp.msg "Order deleted successfully")

/-- `add_inventory` (src/main.py lines 198-208).  `insert_one` inside `try`;
no uniqueness constraint on the inventory collection. -/
def add_inventory (net : Bool) (st : Store) (item : InventoryItem) :
    Except PyExn (Store × Resp) :=
  if net = false then
    Except.ok (st, Resp.err ("Error occurred while adding inventory item: "
      ++ connMsg))
  else
    Except.ok
      ({ st with
          inventory := st.inventory ++ [⟨st.nextOid, item⟩]
          nextOid := st.nextOid + 1 },
        Resp.msgWithId "Inventory item added successfully" "inventory_id"
          (oidString st.nextOid))

/-- `get_inventory` (src/main.py lines 210-222).  `ObjectId(inventory_id)`
and `find_one` inside `try`. -/
def get_inventory (net : Bool) (st : Store) (inventory_id : String) :
    Except PyExn (Store × Resp) :=
  match parseOid inventory_id with
  | none => Except.ok (st,
      Resp.err ("Error occurred while retrieving inventory item: "
        ++ invalidIdMsg inventory_id))
  | some oid =>
    if net = false then
      Except.ok (st, Resp.err ("Error occurred while retrieving inventory item: "
        ++ connMsg))
    else
      match st.inventory.find? (fun d => d.oid == oid) with
      | none => Except.ok (st, Resp.err "Inventory item not found")
      | some d => Except.ok (st, Resp.invRec ⟨oidString d.oid, d.payload⟩)

/-- `update_inventory` (src/main.py lines 224-239).  `ObjectId(inventory_id)`
and `update_one` with a `$set` of the full payload, both inside `try`. -/
def update_inventory (net : Bool) (st : Store) (inventory_id : String)
    (item : InventoryItem) : Except PyExn (Store × Resp) :=
  match parseOid inventory_id with
  | none => Except.ok (st,
      Resp.err ("Error occurred while updating inventory item: "
        ++ invalidIdMsg inventory_id))
  | some oid =>
    if net = false then
      Except.ok (st, Resp.err ("Error occurred while updating inventory item: "
        ++ connMsg))
    else
      let p : Doc InventoryItem → Bool := fun d => d.oid == oid
      let inventory' := updateFirst p (fun d => { d with payload := item })
        st.inventory
      if matchedCount p st.inventory = 0 then
        Except.ok ({ st with inventory := inventory' },
          Resp.err "Inventory item not found")
      else
        Except.ok ({ st with inventory := inventory' },
          Resp.msg "Inventory item updated successfully")

/-- `update_inventory_quantity` (src/main.py lines 241-255).
`ObjectId(inventory_id)` and `update_one` with a `$set` on `quantity` only,
both inside `try`. -/
def update_inventory_quantity (net : Bool) (st : Store) (inventory_id : String)
    (new_quantity : Int) : Except PyExn (Store × Resp) :=
  match parseOid inventory_id with
  | none => Except.ok (st,
      Resp.err ("Error occurred while updating inventory quantity: "
        ++ invalidIdMsg inventory_id))
  | some oid =>
    if net = false then
      Except.ok (st,
        Resp.err ("Error occurred while updating inventory quantity: "
          ++ connMsg))
    else
      let p : Doc InventoryItem → Bool := fun d => d.oid == oid
      let inventory' := updateFirst p
        (fun d => { d with payload := { d.payload with quantity := new_quantity } })
        st.inventory
      if matchedCount p st.inventory = 0 then
        Except.ok ({ st with inventory := inventory' },
          Resp.err "Inventory item not found")
      else
        Except.ok ({ st with inventory := inventory' },
          Resp.msg "Inventory quantity updated successfully")

/-- `delete_inventory` (src/main.py lines 257-268).  `ObjectId(inventory_id)`
and `delete_one`, both inside `try`. -/
def delete_inventory (net : Bool) (st : Store) (inventory_id : String) :
    Except PyExn (Store × Resp) :=
  match parseOid inventory_id with
  | none => Except.ok (st,
      Resp.err ("Error occurred while deleting inventory item: "
        ++ invalidIdMsg inventory_id))
  | some oid =>
    if net = false then
      Except.ok (st, Resp.err ("Error occurred while deleting inventory item: "
        ++ connMsg))
    else
      let p : Doc InventoryItem → Bool := fun d => d.oid == oid
      let inventory' := deleteFirst p st.inventory
      if matchedCount p st.inventory = 0 then
        Except.ok ({ st with inventory := inventory' },
          Resp.err "Inventory item not found")
      else
        Except.ok ({ st with inventory := inventory' },
          Resp.msg "Inventory item deleted successfully")

/-- The Celery task `reset_inventory_data` (src/tasks.py lines 8-17).  The
task body has no `try` block at all: `ObjectId(inventory_id)` raises
`InvalidId` on a malformed id and `update_one` raises on an unreachable
store, and both exceptions escape the task.  On success it performs the same
`update_one` with a `$set` on `quantity` only and returns the fixed string
"Reset inventory data" whether or not any document matched. -/
def reset_inventory_data (net : Bool) (st : Store) (inventory_id : String)
    (new_quantity : Int) : Except PyExn (Store × String) :=
  match parseOid inventory_id with
  | none => Except.error (PyExn.invalidId (invalidIdMsg inventory_id))
  | some oid =>
    if net = false then Except.error (PyExn.connFailure connMsg)
    else
      let p : Doc InventoryItem → Bool := fun d => d.oid == oid
      let inventory' := updateFirst p
        (fun d => { d with payload := { d.payload with quantity := new_quantity } })
        st.inventory
      Except.ok ({ st with inventory := inventory' }, "Reset inventory data")

/-- `trigger_inventory_reset` (src/main.py lines 270-273): enqueues the task
with `delay` and returns the task handle id.  An enqueue failure (broker
unreachable) is not caught and propagates. -/
def trigger_inventory_reset (brokerOk : Bool) (taskId : String)
    (inventory_id : String) (new_quantity : Int) :
    Except PyExn ((String × Int) × Resp) :=
  if brokerOk then Except.ok ((inventory_id, new_quantity), Resp.taskRec taskId)
  else Except.error (PyExn.connFailure connMsg)

/- Helper lemmas about the hex rendering of ObjectIds. -/

theorem hexVal_hexChar (m : Nat) (h : m < 16) : hexVal (hexChar m) = m := by
  interval_cases m <;> decide

theorem isHexDigit_hexChar (m : Nat) (h : m < 16) :
    isHexDigit (hexChar m) = true := by
  interval_cases m <;> decide

theorem hexDigits_length (k n : Nat) : (hexDigits k n).length = k := by
  induction k generalizing n with
  | zero => rfl
  | succ k ih => simp [hexDigits, ih]

theorem hexDigits_hex (k n : Nat) : ∀ c ∈ hexDigits k n, isHexDigit c = true := by
  induction k generalizing n with
  | zero => intro c hc; simp [hexDigits] at hc
  | succ k ih =>
    intro c hc
    rw [hexDigits] at hc
    rcases List.mem_append.mp hc with h1 | h2
    · exact ih (n / 16) c h1
    · rw [List.mem_singleton.mp h2]
      exact isHexDigit_hexChar _ (Nat.mod_lt _ (by omega))

theorem foldl_hexDigits (k : Nat) : ∀ n a : Nat,
    (hexDigits k n).foldl (fun m c => 16 * m + hexVal c) a
      = a * 16 ^ k + n % 16 ^ k := by
  induction k with
  | zero => intro n a; simp [hexDigits, Nat.mod_one]
  | succ k ih =>
    intro n a
    rw [hexDigits, List.foldl_append, ih]
    simp only [List.foldl_cons, List.foldl_nil]
    rw [hexVal_hexChar _ (Nat.mod_lt _ (by omega))]
    rw [pow_succ, mul_comm (16 ^ k) 16, Nat.mod_mul]
    ring

/-- `str` of an ObjectId parses back to the same ObjectId: ids issued by the
service are accepted by the `ObjectId` constructor and denote the same id. -/
theorem parseOid_oidString (n : Nat) (h : n < 16 ^ 24) :
    parseOid (oidString n) = some n := by
  have hlen : (hexDigits 24 n).length = 24 := hexDigits_length 24 n
  have hall : (hexDigits 24 n).all isHexDigit = true :=
    List.all_eq_true.mpr (hexDigits_hex 24 n)
  have hvalid : isValidOid (oidString n) = true := by
    simp only [isValidOid, oidString, hlen, hall, Bool.and_true]
    rfl
  rw [parseOid, if_pos hvalid]
  show some ((hexDigits 24 n).foldl (fun m c => 16 * m + hexVal c) 0) = some n
  rw [foldl_hexDigits, Nat.zero_mul, Nat.zero_add, Nat.mod_eq_of_lt h]

/- Helper lemmas about the single-document write primitives. -/

theorem updateFirst_of_no_match {α : Type} (p : α → Bool) (f : α → α)
    (l : List α) (h : ∀ d ∈ l, p d = false) : updateFirst p f l = l := by
  induction l with
  | nil => rfl
  | cons d ds ih =>
    have hd := h d (List.mem_cons_self d ds)
    simp [updateFirst, hd, ih fun x hx => h x (List.mem_cons_of_mem d hx)]

theorem find?_updateFirst {α : Type} (p : α → Bool) (f : α → α)
    (hpf : ∀ d, p (f d) = p d) (l : List α) :
    (updateFirst p f l).find? p = (l.find? p).map f := by
  induction l with
  | nil => rfl
  | cons d ds ih =>
    cases hd : p d with
    | true =>
      rw [updateFirst, if_pos hd,
        List.find?_cons_of_pos _ (by rw [hpf]; exact hd),
        List.find?_cons_of_pos _ hd]
      rfl
    | false =>
      rw [updateFirst, if_neg (by simp [hd]),
        List.find?_cons_of_neg _ (by simp [hd]),
        List.find?_cons_of_neg _ (by simp [hd]), ih]

theorem forall₂_updateFirst {α : Type} (p : α → Bool) (f : α → α)
    (R : α → α → Prop) (h1 : ∀ d, p d = true → R d (f d)) (h2 : ∀ d, R d d)
    (l : List α) : List.Forall₂ R l (updateFirst p f l) := by
  induction l with
  | nil => exact List.Forall₂.nil
  | cons d ds ih =>
    cases hd : p d with
    | true =>
      rw [updateFirst, if_pos hd]
      exact List.Forall₂.cons (h1 d hd) (List.forall₂_same.mpr fun x _ => h2 x)
    | false =>
      rw [updateFirst, if_neg (by simp [hd])]
      exact List.Forall₂.cons (h2 d) ih

theorem matchedCount_eq_zero {α : Type} (p : α → Bool) (l : List α) :
    matchedCount p l = 0 ↔ ∀ d ∈ l, p d = false := by
  cases h : l.any p with
  | true => simp only [matchedCount, h, if_true]
            simp only [List.any_eq_true] at h
            obtain ⟨x, hx, hpx⟩ := h
            constructor
            · intro h0; omega
            · intro hall; rw [hall x hx] at hpx; cases hpx
  | false => simp only [matchedCount, h, if_false]
             simp only [List.any_eq_false] at h
             constructor
             · intro _ d hd
               cases hpd : p d with
               | true => exact absurd hpd (h d hd)
               | false => rfl
             · intro _; rfl

/- Concrete values used by the witness theorems. -/

def appleFruit : Fruit := ⟨"Apple", "Kashmir", "Autumn", 30, 120, false⟩

def appleStore : Store := ⟨[⟨0, appleFruit⟩], [], [], 1⟩

def appleItem : InventoryItem := ⟨appleFruit, 3, "2024-01-01"⟩

def invStore : Store := ⟨[], [], [⟨5, appleItem⟩], 6⟩

def invStore7 : Store := ⟨[], [], [⟨5, ⟨appleFruit, 7, "2024-01-01"⟩⟩], 6⟩

def zeroQtyOrder : OrderRequest := ⟨"Apple", 0, "21 Street", 10, "standard", none⟩

/-- C1: adding a fruit whose name is already stored fails with the
constraint-violation error body from the unique name index, and the store —
in particular the previously stored record with that name — is exactly the
same before and after the failed add. -/
theorem add_fruit_duplicate_name_rejected (st : Store) (f : Fruit)
    (hdup : ∃ d ∈ st.fruits, d.payload.name = f.name) :
    add_fruit true st f =
      Except.ok (st,
        Resp.err ("Error occurred while adding fruit to database: "
          ++ dupKeyMsg)) := by
  obtain ⟨d, hd, hname⟩ := hdup
  have hany : st.fruits.any (fun d => d.payload.name == f.name) = true :=
    List.any_eq_true.mpr ⟨d, hd, by simp [hname]⟩
  simp [add_fruit, hany]

theorem add_fruit_duplicate_name_rejected_w :
    add_fruit true appleStore appleFruit =
      Except.ok (appleStore,
        Resp.err ("Error occurred while adding fruit to database: "
          ++ dupKeyMsg)) :=
  add_fruit_duplicate_name_rejected appleStore appleFruit
    ⟨⟨0, appleFruit⟩, by simp [appleStore], rfl⟩

/-- C2: when add fruit succeeds on payload F, get fruit on F.name returns a
record whose payload fields (name, region, season, shelf_life_days, price,
ripe) are exactly F, differing from F only by the stringified identifier of
the freshly inserted document. -/
theorem add_then_get_fruit (st : Store) (f : Fruit)
    (hfresh : ∀ d ∈ st.fruits, d.payload.name ≠ f.name) :
    ∃ st' : Store,
      add_fruit true st f = Except.ok (st',
        Resp.msgWithId "Fruit added successfully" "fruit_id"
          (oidString st.nextOid)) ∧
      get_fruit true st' f.name =
        Except.ok (st', Resp.fruitRec ⟨oidString st.nextOid, f⟩) := by
  have hany : st.fruits.any (fun d => d.payload.name == f.name) = false :=
    List.any_eq_false.mpr fun d hd => by simp [hfresh d hd]
  have hnone : st.fruits.find? (fun d => d.payload.name == f.name) = none :=
    List.find?_eq_none.mpr fun d hd => by simp [hfresh d hd]
  refine ⟨{ st with
      fruits := st.fruits ++ [⟨st.nextOid, f⟩]
      nextOid := st.nextOid + 1 }, ?_, ?_⟩
  · simp [add_fruit, hany]
  · simp [get_fruit, List.find?_append, hnone]

theorem add_then_get_fruit_w :
    ∃ st' : Store,
      add_fruit true emptyStore appleFruit = Except.ok (st',
        Resp.msgWithId "Fruit added successfully" "fruit_id" (oidString 0)) ∧
      get_fruit true st' "Apple" =
        Except.ok (st', Resp.fruitRec ⟨oidString 0, appleFruit⟩) :=
  add_then_get_fruit emptyStore appleFruit (by simp [emptyStore])

/-- C3: updating the price of a fruit name that is not in the store returns
the not-found error body and leaves the store exactly unchanged — in
particular no record is created (`update_one` without upsert). -/
theorem update_fruit_price_not_found (st : Store) (name : String) (p : Rat)
    (h : ∀ d ∈ st.fruits, d.payload.name ≠ name) :
    update_fruit_price true st name p =
      Except.ok (st, Resp.err "Fruit not found") := by
  have hmc : matchedCount (fun d : Doc Fruit => d.payload.name == name)
      st.fruits = 0 :=
    (matchedCount_eq_zero _ _).mpr fun d hd => by simp [h d hd]
  have hup : updateFirst (fun d : Doc Fruit => d.payload.name == name)
      (fun d => { d with payload := { d.payload with price := p } })
      st.fruits = st.fruits :=
    updateFirst_of_no_match _ _ _ fun d hd => by simp [h d hd]
  simp [update_fruit_price, hmc, hup]

theorem update_fruit_price_not_found_w :
    update_fruit_price true emptyStore "Mango" 45 =
      Except.ok (emptyStore, Resp.err "Fruit not found") :=
  update_fruit_price_not_found emptyStore "Mango" 45 (by simp [emptyStore])

/-- C4: for an id string issued for an inventory document that still exists
(the string rendering of the stored ObjectId), updating the quantity to
q ≥ 0 succeeds and an immediate get on the same id returns an item whose
quantity field equals q. -/
theorem update_then_get_inventory_quantity (st : Store) (idStr : String)
    (d : Doc InventoryItem) (q : Int)
    (_hq : 0 ≤ q)
    (hmem : d ∈ st.inventory)
    (hid : idStr = oidString d.oid)
    (hlt : d.oid < 16 ^ 24) :
    ∃ st' : Store,
      update_inventory_quantity true st idStr q =
        Except.ok (st', Resp.msg "Inventory quantity updated successfully") ∧
      ∃ item : DocOut InventoryItem,
        get_inventory true st' idStr = Except.ok (st', Resp.invRec item) ∧
        item.payload.quantity = q := by
  have hpar : parseOid idStr = some d.oid := by
    rw [hid]; exact parseOid_oidString d.oid hlt
  have hany : st.inventory.any (fun x => x.oid == d.oid) = true :=
    List.any_eq_true.mpr ⟨d, hmem, by simp⟩
  have hmc : matchedCount (fun x : Doc InventoryItem => x.oid == d.oid)
      st.inventory = 1 := by
    simp only [matchedCount, hany, if_true]
  obtain ⟨d₀, hd₀⟩ : ∃ d₀,
      st.inventory.find? (fun x => x.oid == d.oid) = some d₀ := by
    cases hf : st.inventory.find? (fun x => x.oid == d.oid) with
    | none =>
      rw [List.find?_eq_none] at hf
      obtain ⟨x, hx, hpx⟩ := List.any_eq_true.mp hany
      exact absurd hpx (hf x hx)
    | some d₀ => exact ⟨d₀, rfl⟩
  have hfind2 : (updateFirst (fun x : Doc InventoryItem => x.oid == d.oid)
      (fun x => { x with payload := { x.payload with quantity := q } })
      st.inventory).find? (fun x => x.oid == d.oid) =
        some { d₀ with payload := { d₀.payload with quantity := q } } := by
    rw [find?_updateFirst (fun x : Doc InventoryItem => x.oid == d.oid)
      (fun x => { x with payload := { x.payload with quantity := q } })
      (fun x => rfl), hd₀]
    rfl
  refine ⟨{ st with
      inventory := updateFirst (fun x => x.oid == d.oid)
        (fun x => { x with payload := { x.payload with quantity := q } })
        st.inventory }, ?_, ?_⟩
  · simp [update_inventory_quantity, hpar, hmc]
  · exact ⟨⟨oidString d₀.oid, { d₀.payload with quantity := q }⟩,
      by simp [get_inventory, hpar, hfind2], rfl⟩

theorem update_then_get_inventory_quantity_w :
    ∃ st' : Store,
      update_inventory_quantity true invStore (oidString 5) 7 =
        Except.ok (st', Resp.msg "Inventory quantity updated successfully") ∧
      ∃ item : DocOut InventoryItem,
        get_inventory true st' (oidString 5) =
          Except.ok (st', Resp.invRec item) ∧
        item.payload.quantity = 7 :=
  update_then_get_inventory_quantity invStore (oidString 5) ⟨5, appleItem⟩ 7
    (by norm_num) (by simp [invStore]) rfl (by norm_num)

/-- C6: for a well-formed inventory identifier, the reset task is a silent
no-op on the store when the identifier matches no inventory record, and in
every case — match or no match — it returns the same fixed acknowledgement
string "Reset inventory data" rather than any status or not-found report. -/
theorem reset_task_no_match_noop (st : Store) (idStr : String) (q : Int)
    (oid : Nat) (hpar : parseOid idStr = some oid) :
    ((∀ d ∈ st.inventory, d.oid ≠ oid) →
      reset_inventory_data true st idStr q =
        Except.ok (st, "Reset inventory data")) ∧
    ∃ st' : Store,
      reset_inventory_data true st idStr q =
        Except.ok (st', "Reset inventory data") := by
  constructor
  · intro h
    have hup : updateFirst (fun d : Doc InventoryItem => d.oid == oid)
        (fun d => { d with payload := { d.payload with quantity := q } })
        st.inventory = st.inventory :=
      updateFirst_of_no_match _ _ _ fun d hd => by simp [h d hd]
    simp [reset_inventory_data, hpar, hup]
  · exact ⟨{ st with
        inventory := updateFirst (fun d => d.oid == oid)
          (fun d => { d with payload := { d.payload with quantity := q } })
          st.inventory },
      by simp [reset_inventory_data, hpar]⟩

theorem reset_task_no_match_noop_w :
    reset_inventory_data true emptyStore (oidString 1) 9 =
      Except.ok (emptyStore, "Reset inventory data") :=
  (reset_task_no_match_noop emptyStore (oidString 1) 9 1
    (parseOid_oidString 1 (by norm_num))).1 (by simp [emptyStore])

/-- C7: whenever the reset task body runs to completion on some initial
store, the store it leaves behind is exactly the store left by calling the
update-inventory-quantity endpoint with the same id string and quantity on
the same initial store. -/
theorem reset_task_effect_eq_update_endpoint (net : Bool) (st st' : Store)
    (idStr : String) (q : Int) (ack : String)
    (h : reset_inventory_data net st idStr q = Except.ok (st', ack)) :
    ∃ r : Resp, update_inventory_quantity net st idStr q =
      Except.ok (st', r) := by
  cases hpar : parseOid idStr with
  | none => rw [reset_inventory_data, hpar] at h; cases h
  | some oid =>
    cases net with
    | false => simp [reset_inventory_data, hpar] at h
    | true =>
      simp only [reset_inventory_data, hpar] at h
      rw [if_neg (by simp)] at h
      obtain ⟨hst, -⟩ := Prod.mk.injEq .. ▸ (Except.ok.injEq .. ▸ h)
      by_cases hmc : matchedCount (fun x : Doc InventoryItem => x.oid == oid)
          st.inventory = 0
      · exact ⟨Resp.err "Inventory item not found",
          by simp [update_inventory_quantity, hpar, hmc, ← hst]⟩
      · exact ⟨Resp.msg "Inventory quantity updated successfully",
          by simp [update_inventory_quantity, hpar, hmc, ← hst]⟩

theorem reset_task_effect_eq_update_endpoint_w :
    ∃ r : Resp, update_inventory_quantity true invStore (oidString 5) 7 =
      Except.ok (invStore7, r) :=
  reset_task_effect_eq_update_endpoint true invStore invStore7
    (oidString 5) 7 "Reset inventory data" rfl

/-- C9: the reset task writes only the quantity field: the fruits and orders
collections are untouched, every inventory document keeps its identifier,
fruit and last_updated fields, and every document other than the matched one
is entirely unchanged — so last_updated is not refreshed on reset. -/
theorem reset_task_frame (st st' : Store) (idStr : String) (q : Int)
    (oid : Nat) (ack : String)
    (hpar : parseOid idStr = some oid)
    (h : reset_inventory_data true st idStr q = Except.ok (st', ack)) :
    st'.fruits = st.fruits ∧ st'.orders = st.orders ∧
    List.Forall₂ (fun d d' : Doc InventoryItem =>
      d'.oid = d.oid ∧ d'.payload.fruit = d.payload.fruit ∧
      d'.payload.last_updated = d.payload.last_updated ∧
      (d.oid ≠ oid → d' = d)) st.inventory st'.inventory := by
  simp only [reset_inventory_data, hpar] at h
  rw [if_neg (by simp)] at h
  obtain ⟨hst, -⟩ := Prod.mk.injEq .. ▸ (Except.ok.injEq .. ▸ h)
  rw [← hst]
  refine ⟨rfl, rfl, ?_⟩
  exact forall₂_updateFirst _ _ _
    (fun d hd => ⟨rfl, rfl, rfl, fun hne => absurd (by simpa using hd) hne⟩)
    (fun d => ⟨rfl, rfl, rfl, fun _ => rfl⟩) st.inventory

theorem reset_task_frame_w :
    invStore7.fruits = invStore.fruits ∧
    invStore7.orders = invStore.orders ∧
    List.Forall₂ (fun d d' : Doc InventoryItem =>
      d'.oid = d.oid ∧ d'.payload.fruit = d.payload.fruit ∧
      d'.payload.last_updated = d.payload.last_updated ∧
      (d.oid ≠ 5 → d' = d)) invStore.inventory invStore7.inventory :=
  reset_task_frame invStore invStore7 (oidString 5) 7 5 "Reset inventory data"
    (parseOid_oidString 5 (by norm_num)) rfl

/-- C10: on an input string that the ObjectId constructor rejects, the reset
task raises InvalidId out of the task body — it neither performs a silent
no-op nor returns the acknowledgement string. -/
theorem reset_task_raises_on_malformed_id (net : Bool) (st : Store)
    (idStr : String) (q : Int) (hpar : parseOid idStr = none) :
    reset_inventory_data net st idStr q =
      Except.error (PyExn.invalidId (invalidIdMsg idStr)) := by
  simp [reset_inventory_data, hpar]

theorem reset_task_raises_on_malformed_id_w :
    reset_inventory_data true emptyStore "not-a-valid-objectid" 5 =
      Except.error (PyExn.invalidId (invalidIdMsg "not-a-valid-objectid")) :=
  reset_task_raises_on_malformed_id true emptyStore "not-a-valid-objectid" 5
    (by decide)

/-- C5 as stated is false: `update_fruit_price` performs its store call
outside any try block (src/main.py lines 101-104), so a store/network
failure escapes the handler as an uncaught exception instead of being
converted to the uniform error body. -/
theorem store_failure_propagates_cex :
    update_fruit_price false emptyStore "Mango" 45 =
      Except.error (PyExn.connFailure connMsg) := rfl

/-- C5 amended: not-found, malformed-identifier and constraint-violation
errors are always converted to the uniform error body; every handler whose
store call sits inside try/except (add fruit, place order, get/update/delete
order, add/get/update inventory, update inventory quantity, delete
inventory) converts store failures the same way and lets no exception
escape; but get fruit, update fruit price and delete fruit perform their
store call outside any try, so a store failure propagates uncaught from
exactly those three handlers (and the reset trigger likewise propagates a
broker enqueue failure, as the spec already notes). -/
theorem error_bodies_uniform_amended (st : Store) (s fname tid : String)
    (p : Rat) (f : Fruit) (o : OrderRequest) (it : InventoryItem) (q : Int) :
    get_fruit false st fname = Except.error (PyExn.connFailure connMsg) ∧
    update_fruit_price false st fname p =
      Except.error (PyExn.connFailure connMsg) ∧
    delete_fruit false st fname = Except.error (PyExn.connFailure connMsg) ∧
    trigger_inventory_reset false tid s q =
      Except.error (PyExn.connFailure connMsg) ∧
    (∀ e : PyExn, get_fruit true st fname ≠ Except.error e) ∧
    (∀ e : PyExn, update_fruit_price true st fname p ≠ Except.error e) ∧
    (∀ e : PyExn, delete_fruit true st fname ≠ Except.error e) ∧
    (∀ net : Bool, ∀ e : PyExn, add_fruit net st f ≠ Except.error e) ∧
    (∀ net : Bool, ∀ e : PyExn, place_order net st o ≠ Except.error e) ∧
    (∀ net : Bool, ∀ e : PyExn, get_order net st s ≠ Except.error e) ∧
    (∀ net : Bool, ∀ e : PyExn, update_order net st s o ≠ Except.error e) ∧
    (∀ net : Bool, ∀ e : PyExn, delete_order net st s ≠ Except.error e) ∧
    (∀ net : Bool, ∀ e : PyExn, add_inventory net st it ≠ Except.error e) ∧
    (∀ net : Bool, ∀ e : PyExn, get_inventory net st s ≠ Except.error e) ∧
    (∀ net : Bool, ∀ e : PyExn, update_inventory net st s it ≠ Except.error e) ∧
    (∀ net : Bool, ∀ e : PyExn,
      update_inventory_quantity net st s q ≠ Except.error e) ∧
    (∀ net : Bool, ∀ e : PyExn, delete_inventory net st s ≠ Except.error e) ∧
    (∀ net : Bool, ∀ st' : Store, ∀ r : Resp,
      get_order net st s = Except.ok (st', r) →
      st' = st ∧ ((∃ m, r = Resp.err m) ∨ ∃ od, r = Resp.orderRec od)) := by
  refine ⟨rfl, rfl, rfl, rfl, ?_, ?_, ?_, ?_, ?_, ?_, ?_, ?_, ?_, ?_, ?_, ?_,
    ?_, ?_⟩
  · intro e heq
    unfold get_fruit at heq
    try dsimp only at heq
    repeat' split at heq
    all_goals contradiction
  · intro e heq
    unfold update_fruit_price at heq
    try dsimp only at heq
    repeat' split at heq
    all_goals contradiction
  · intro e heq
    unfold delete_fruit at heq
    try dsimp only at heq
    repeat' split at heq
    all_goals contradiction
  · intro net e heq
    unfold add_fruit at heq
    try dsimp only at heq
    repeat' split at heq
    all_goals contradiction
  · intro net e heq
    unfold place_order at heq
    try dsimp only at heq
    repeat' split at heq
    all_goals contradiction
  · intro net e heq
    unfold get_order at heq
    try dsimp only at heq
    repeat' split at heq
    all_goals contradiction
  · intro net e heq
    unfold update_order at heq
    try dsimp only at heq
    repeat' split at heq
    all_goals contradiction
  · intro net e heq
    unfold delete_order at heq
    try dsimp only at heq
    repeat' split at heq
    all_goals contradiction
  · intro net e heq
    unfold add_inventory at heq
    try dsimp only at heq
    repeat' split at heq
    all_goals contradiction
  · intro net e heq
    unfold get_inventory at heq
    try dsimp only at heq
    repeat' split at heq
    all_goals contradiction
  · intro net e heq
    unfold update_inventory at heq
    try dsimp only at heq
    repeat' split at heq
    all_goals contradiction
  · intro net e heq
    unfold update_inventory_quantity at heq
    try dsimp only at heq
    repeat' split at heq
    all_goals contradiction
  · intro net e heq
    unfold delete_inventory at heq
    try dsimp only at heq
    repeat' split at heq
    all_goals contradiction
  · intro net st' r h
    unfold get_order at h
    split at h
    · have h' := Except.ok.inj h
      exact ⟨(congrArg Prod.fst h').symm, Or.inl ⟨_, (congrArg Prod.snd h').symm⟩⟩
    · split at h
      · have h' := Except.ok.inj h
        exact ⟨(congrArg Prod.fst h').symm, Or.inl ⟨_, (congrArg Prod.snd h').symm⟩⟩
      · split at h
        · have h' := Except.ok.inj h
          exact ⟨(congrArg Prod.fst h').symm,
            Or.inl ⟨_, (congrArg Prod.snd h').symm⟩⟩
        · have h' := Except.ok.inj h
          exact ⟨(congrArg Prod.fst h').symm,
            Or.inr ⟨_, (congrArg Prod.snd h').symm⟩⟩

theorem error_bodies_uniform_amended_w :
    get_fruit false emptyStore "Apple" =
      Except.error (PyExn.connFailure connMsg) :=
  (error_bodies_uniform_amended emptyStore "x" "Apple" "tid" 45 appleFruit
    zeroQtyOrder appleItem 7).1

/-- C8 as stated is false: `place_order` applies no business-rule
validation, so an order payload with quantity 0 is accepted with a success
message and inserted into the orders collection — quantity > 0 is not an
invariant of stored Order records. -/
theorem place_order_zero_quantity_cex :
    place_order true emptyStore zeroQtyOrder =
      Except.ok (⟨[], [⟨0, zeroQtyOrder⟩], [], 1⟩,
        Resp.msgWithId "Order placed successfully" "order_id"
          (oidString 0)) ∧
    zeroQtyOrder.quantity = 0 := ⟨rfl, rfl⟩

/-- C8 amended: payload validation is schema-only; with the store reachable,
place order inserts every OrderRequest payload — whatever the sign of its
quantity — and reports success, so stored orders can have quantity ≤ 0. -/
theorem place_order_inserts_any_quantity (st : Store) (o : OrderRequest) :
    place_order true st o =
      Except.ok ({ st with
          orders := st.orders ++ [⟨st.nextOid, o⟩]
          nextOid := st.nextOid + 1 },
        Resp.msgWithId "Order placed successfully" "order_id"
          (oidString st.nextOid)) := rfl
